import Mathlib

/-!
Verification model of the LabSound `AudioNodeOutput` connection core
(`src/include/nodes/AudioNodeOutput.h`).  The header gives the member
layout and the inline accessors (`numberOfChannels`, `isChannelCountKnown`,
`isConnected`); the bodies of the remaining operations are not part of the
sources, so they are modelled from the specification (each such definition
says so in its doc comment).
-/

namespace LabSoundModel

/-- The fixed fan-out capacity `AUDIONODEOUTPUT_MAXINPUTS` from
`AudioNodeOutput.h` line 128. -/
def AUDIONODEOUTPUT_MAXINPUTS : Nat := 8

/-- An abstract `AudioBus`: an identity plus a channel count.  The sample
data itself is an external collaborator and is not modelled. -/
structure AudioBus where
  busId : Nat
  channels : Nat
deriving DecidableEq

/-- The state of one `AudioNodeOutput` (member layout from
`AudioNodeOutput.h` lines 83-139).  Connected `AudioNodeInput`s and
`AudioParam`s are identified by `Nat` ids; `m_inputs` is the bounded
connection array (capacity `AUDIONODEOUTPUT_MAXINPUTS`), `m_params` the
connected-parameter set (a `std::set`, hence duplicate-free by
construction of `addParam`). -/
structure AudioNodeOutput where
  m_node : Nat
  m_numberOfChannels : Nat
  m_desiredNumberOfChannels : Nat
  m_internalBus : AudioBus
  m_actualDestinationBus : Option AudioBus
  m_inputs : List Nat
  m_isEnabled : Bool
  m_renderingFanOutCount : Nat
  m_renderingParamFanOutCount : Nat
  m_params : List Nat
deriving DecidableEq

namespace AudioNodeOutput

/-- Modelled from the spec: the body of the constructor
`AudioNodeOutput(AudioNode*, unsigned numberOfChannels)` (declared at
`AudioNodeOutput.h` line 44) is not in the sources.  Per the header
comment it is OK to pass 0 for `numberOfChannels`, in which case
`setNumberOfChannels` must be called later; per the spec the channel
count "may start unknown (0)", there are no connections yet and the
output starts enabled. -/
def mkOutput (node : Nat) (numberOfChannels : Nat) : AudioNodeOutput :=
  { m_node := node
    m_numberOfChannels := numberOfChannels
    m_desiredNumberOfChannels := numberOfChannels
    m_internalBus := { busId := 0, channels := numberOfChannels }
    m_actualDestinationBus := none
    m_inputs := []
    m_isEnabled := true
    m_renderingFanOutCount := 0
    m_renderingParamFanOutCount := 0
    m_params := [] }

/-- `numberOfChannels()` (inline in `AudioNodeOutput.h` line 69). -/
def numberOfChannels (o : AudioNodeOutput) : Nat := o.m_numberOfChannels

/-- `isChannelCountKnown()` (inline in `AudioNodeOutput.h` line 70):
`return numberOfChannels() > 0;`. -/
def isChannelCountKnown (o : AudioNodeOutput) : Bool :=
  decide (o.numberOfChannels > 0)

/-- Modelled from the spec: the body of `fanOutCount()` (declared at
`AudioNodeOutput.h` line 98) is not in the sources.  It is the live
number of `AudioNodeInput`s the output is connected to. -/
def fanOutCount (o : AudioNodeOutput) : Nat := o.m_inputs.length

/-- Modelled from the spec: the body of `paramFanOutCount()` (declared at
`AudioNodeOutput.h` line 103) is not in the sources.  It is the live
number of `AudioParam`s the output is connected to. -/
def paramFanOutCount (o : AudioNodeOutput) : Nat := o.m_params.length

/-- `isConnected()` (inline in `AudioNodeOutput.h` line 72):
`return fanOutCount() > 0 || paramFanOutCount() > 0;`. -/
def isConnected (o : AudioNodeOutput) : Bool :=
  decide (o.fanOutCount > 0) || decide (o.paramFanOutCount > 0)

/-- Modelled from the spec: the body of `renderingFanOutCount()` (declared
at `AudioNodeOutput.h` line 60) is not in the sources; it reads the frozen
snapshot member `m_renderingFanOutCount`. -/
def renderingFanOutCount (o : AudioNodeOutput) : Nat := o.m_renderingFanOutCount

/-- Modelled from the spec: the body of `renderingParamFanOutCount()`
(declared at `AudioNodeOutput.h` line 64) is not in the sources; it reads
the frozen snapshot member `m_renderingParamFanOutCount`. -/
def renderingParamFanOutCount (o : AudioNodeOutput) : Nat :=
  o.m_renderingParamFanOutCount

/-- The capacity error reported when an `addInput` would exceed the fixed
fan-out capacity (spec section 7). -/
inductive ConnectError where
  | capacityExceeded
deriving DecidableEq

/-- Modelled from the spec: the body of `addInput` (declared at
`AudioNodeOutput.h` line 90) is not in the sources.  It inserts the input
into the bounded connection array; it fails with a capacity error, leaving
the state unmodified, if the fixed capacity is already exhausted. -/
def addInput (o : AudioNodeOutput) (i : Nat) :
    Except ConnectError AudioNodeOutput :=
  if o.m_inputs.length < AUDIONODEOUTPUT_MAXINPUTS then
    Except.ok { o with m_inputs := o.m_inputs ++ [i] }
  else
    Except.error ConnectError.capacityExceeded

/-- Modelled from the spec: the body of `removeInput` (declared at
`AudioNodeOutput.h` line 91) is not in the sources.  It erases the input
from the bounded connection array; removing an input that is not present
is a no-op, not an error. -/
def removeInput (o : AudioNodeOutput) (i : Nat) : AudioNodeOutput :=
  { o with m_inputs := o.m_inputs.erase i }

/-- Modelled from the spec: the body of `addParam` (declared at
`AudioNodeOutput.h` line 92) is not in the sources.  It inserts the param
into the connected-parameter set (`std::set` insert: a no-op if already
present). -/
def addParam (o : AudioNodeOutput) (p : Nat) : AudioNodeOutput :=
  if o.m_params.contains p then o
  else { o with m_params := o.m_params ++ [p] }

/-- Modelled from the spec: the body of `removeParam` (declared at
`AudioNodeOutput.h` line 93) is not in the sources.  It erases the param
from the connected-parameter set; a no-op if not present. -/
def removeParam (o : AudioNodeOutput) (p : Nat) : AudioNodeOutput :=
  { o with m_params := o.m_params.erase p }

/-- `setNumberOfChannels` (declared at `AudioNodeOutput.h` line 68).
Modelled from the spec: it only stores a *desired* channel count; the
actual count and the internal bus change later on the render thread. -/
def setNumberOfChannels (o : AudioNodeOutput) (n : Nat) : AudioNodeOutput :=
  { o with m_desiredNumberOfChannels := n }

/-- Modelled from the spec: the body of `updateInternalBus()` (declared at
`AudioNodeOutput.h` line 111) is not in the sources.  It reallocates
`m_internalBus` appropriately for the current number of channels. -/
def updateInternalBus (o : AudioNodeOutput) : AudioNodeOutput :=
  { o with m_internalBus :=
      { busId := o.m_internalBus.busId, channels := o.m_numberOfChannels } }

/-- Modelled from the spec: the render-thread step that picks up a pending
desired-channel-count change, copying desired into actual and reallocating
the internal bus via `updateInternalBus`. -/
def updateChannelsIfNecessary (o : AudioNodeOutput) : AudioNodeOutput :=
  if o.m_desiredNumberOfChannels = o.m_numberOfChannels then o
  else updateInternalBus { o with m_numberOfChannels := o.m_desiredNumberOfChannels }

/-- Modelled from the spec: the output-local part of
`updateRenderingState()` (declared at `AudioNodeOutput.h` line 80), whose
body is not in the sources.  At a quantum boundary it applies any pending
channel-count change and copies the live fan-out counts into the frozen
rendering snapshot. -/
def updateRenderingStateOut (o : AudioNodeOutput) : AudioNodeOutput :=
  let o1 := updateChannelsIfNecessary o
  { o1 with m_renderingFanOutCount := fanOutCount o1
            m_renderingParamFanOutCount := paramFanOutCount o1 }

/-- Modelled from the spec: the bus-selection logic of `pull` (declared at
`AudioNodeOutput.h` line 52), whose body is not in the sources.  In-place
processing is chosen exactly when a caller bus was supplied, it is safe to
reuse (its channel count matches), and there is exactly one downstream
consumer this quantum (rendering fan-out plus rendering param fan-out is
1); otherwise the output's own internal bus is used.  The chosen bus is
recorded in `m_actualDestinationBus` and returned. -/
def pull (o : AudioNodeOutput) (inPlaceBus : Option AudioBus) :
    AudioNodeOutput × AudioBus :=
  let dest : AudioBus :=
    match inPlaceBus with
    | some b =>
        if b.channels = o.m_numberOfChannels ∧
            o.renderingFanOutCount + o.renderingParamFanOutCount = 1
        then b
        else o.m_internalBus
    | none => o.m_internalBus
  ({ o with m_actualDestinationBus := some dest }, dest)

/-- Modelled from the spec: the body of `disable` (declared at
`AudioNodeOutput.h` line 76) is not in the sources.  It marks the output
inactive without severing any connection. -/
def disable (o : AudioNodeOutput) : AudioNodeOutput :=
  { o with m_isEnabled := false }

/-- Modelled from the spec: the body of `enable` (declared at
`AudioNodeOutput.h` line 77) is not in the sources.  It marks the output
active again; connections were never removed, so nothing is re-established. -/
def enable (o : AudioNodeOutput) : AudioNodeOutput :=
  { o with m_isEnabled := true }

/-- Modelled from the spec: the fan-out a disabled output contributes to
rendering is zero (it is "excluded from active fan-out" while keeping its
edges); an enabled output contributes its frozen rendering fan-out. -/
def renderingContribution (o : AudioNodeOutput) : Nat :=
  if o.m_isEnabled then
    o.m_renderingFanOutCount + o.m_renderingParamFanOutCount
  else 0

end AudioNodeOutput

/-- A structural (graph-lock) mutation on an output, as performed by the
control thread mid-quantum. -/
inductive StructOp where
  | addIn (i : Nat)
  | removeIn (i : Nat)
  | addP (p : Nat)
  | removeP (p : Nat)
deriving DecidableEq

/-- Apply a structural mutation; a failing `addInput` (capacity error)
leaves the output unmodified. -/
def applyStructOp (o : AudioNodeOutput) (op : StructOp) : AudioNodeOutput :=
  match op with
  | StructOp.addIn i =>
      match o.addInput i with
      | Except.ok o2 => o2
      | Except.error _ => o
  | StructOp.removeIn i => o.removeInput i
  | StructOp.addP p => o.addParam p
  | StructOp.removeP p => o.removeParam p

/-- The environment an output's `updateRenderingState` acts on: the output
itself plus, for each connected `AudioNodeInput` (by id), that input's
derived channel count.  The deterministic up-mix or down-mix rule deriving
an input's channel count from its source's is an external collaborator,
passed in as `derive`. -/
structure GraphEnv where
  out : AudioNodeOutput
  inputDerivedChannelCount : Nat → Nat

/-- Modelled from the spec: the body of `propagateChannelCount` (declared
at `AudioNodeOutput.h` line 114) is not in the sources.  It announces the
output's (new) channel count to every connected input, which recomputes
its derived channel count with the external mixing rule. -/
def propagateChannelCount (derive : Nat → Nat) (s : GraphEnv) : GraphEnv :=
  { s with inputDerivedChannelCount := fun i =>
      if s.out.m_inputs.contains i then derive s.out.m_numberOfChannels
      else s.inputDerivedChannelCount i }

/-- Modelled from the spec: `updateRenderingState()` (declared at
`AudioNodeOutput.h` line 80), run once per quantum at a boundary on the
render thread: apply any pending desired-channel-count change (reallocating
the internal bus), refresh the frozen rendering fan-out counts from the
live state, and, when the channel count changed, propagate it to every
connected input. -/
def updateRenderingState (derive : Nat → Nat) (s : GraphEnv) : GraphEnv :=
  let changed := s.out.m_desiredNumberOfChannels ≠ s.out.m_numberOfChannels
  let s1 : GraphEnv := { s with out := s.out.updateRenderingStateOut }
  if changed then propagateChannelCount derive s1 else s1

/-- A two-sided view of one output's connections, for the disconnect
protocol: the output `out` with id `outId`, plus the reverse reference
sets held by every `AudioNodeInput` and `AudioParam` (by id). -/
structure BiGraph where
  outId : Nat
  out : AudioNodeOutput
  inputOutputs : Nat → List Nat
  paramOutputs : Nat → List Nat

/-- Modelled from the spec: the body of `disconnectAllInputs` (declared at
`AudioNodeOutput.h` line 106) is not in the sources.  It severs the edge
to every connected input, notifying each peer to drop its reverse
reference to this output. -/
def disconnectAllInputs (s : BiGraph) : BiGraph :=
  { s with
      out := { s.out with m_inputs := [] }
      inputOutputs := fun i =>
        if s.out.m_inputs.contains i then
          (s.inputOutputs i).filter (fun x => x != s.outId)
        else s.inputOutputs i }

/-- Modelled from the spec: the body of `disconnectAllParams` (declared at
`AudioNodeOutput.h` line 107) is not in the sources.  It severs the edge
to every connected param, notifying each peer to drop its reverse
reference to this output. -/
def disconnectAllParams (s : BiGraph) : BiGraph :=
  { s with
      out := { s.out with m_params := [] }
      paramOutputs := fun p =>
        if s.out.m_params.contains p then
          (s.paramOutputs p).filter (fun x => x != s.outId)
        else s.paramOutputs p }

/-- Modelled from the spec: `disconnectAll` (declared at
`AudioNodeOutput.h` line 66) severs every edge to every connected input
and param. -/
def disconnectAll (s : BiGraph) : BiGraph :=
  disconnectAllParams (disconnectAllInputs s)

/-- The audio-producing graph seen by the render traversal: for each node
id, the ids of the upstream nodes its inputs pull from. -/
structure AudioGraph where
  pred : Nat → List Nat

/-- Per-quantum render state: the "already processed this quantum"
memoization guard (the set of node ids whose processing has begun this
quantum) and, per node, how many times its process step has run. -/
structure RenderState where
  processedThisQuantum : List Nat
  processCount : Nat → Nat

/-- The state at a quantum boundary, after the per-node "already processed
this quantum" guard has been reset: nothing processed yet this quantum. -/
def quantumStart : RenderState :=
  { processedThisQuantum := [], processCount := fun _ => 0 }

/-- Mark a node's memoization guard: its processing has begun this
quantum. -/
def markProcessed (st : RenderState) (n : Nat) : RenderState :=
  { processedThisQuantum := n :: st.processedThisQuantum
    processCount := st.processCount }

/-- Record one run of a node's process step. -/
def bumpCount (st : RenderState) (n : Nat) : RenderState :=
  { st with processCount := fun m =>
      if m = n then st.processCount m + 1 else st.processCount m }

/-- Modelled from the spec: the processing traversal induced by `pull`
(declared at `AudioNodeOutput.h` line 52), whose body is not in the
sources.  Pulling a node checks the memoization guard: if the node already
processed this quantum the pull is a no-op; otherwise the node is marked,
its upstream sources are pulled recursively (in order), and its process
step runs once.  `fuel` bounds the recursion depth; exhausting it yields
`none` (the traversal failed to bottom out). -/
def pullNode (g : AudioGraph) : Nat → RenderState → Nat → Option RenderState
  | 0, _, _ => none
  | fuel + 1, st, n =>
    if st.processedThisQuantum.contains n then some st
    else
      match (g.pred n).foldl
          (fun acc m => match acc with
            | none => none
            | some s => pullNode g fuel s m)
          (some (markProcessed st n)) with
      | none => none
      | some st2 => some (bumpCount st2 n)

/-- Modelled from the spec: pull each listed node in turn with the given
fuel (this is both the per-input summing loop of the render traversal and
the way several downstream consumers pull the same upstream node within
one quantum). -/
def pullUpstream (g : AudioGraph) (fuel : Nat) (st : RenderState)
    (l : List Nat) : Option RenderState :=
  l.foldl
    (fun acc m => match acc with
      | none => none
      | some s => pullNode g fuel s m)
    (some st)

/-- The diamond graph of the spec's testable property: A=0 feeds B=1 and
C=2, which both feed D=3. -/
def diamondPred (n : Nat) : List Nat :=
  if n = 1 then [0] else if n = 2 then [0] else if n = 3 then [1, 2] else []

/-- The diamond graph A→B, A→C, B→D, C→D as an `AudioGraph`. -/
def diamondGraph : AudioGraph := { pred := diamondPred }

/-- `true` iff the state (if the pull succeeded) records at most one run of
node `k`'s process step. -/
def countsAtMostOnce (o : Option RenderState) (k : Nat) : Bool :=
  match o with
  | none => true
  | some st => decide (st.processCount k ≤ 1)

/-- The per-quantum counting invariant: every node's process step has run
at most once, and only for nodes whose memoization guard is set. -/
def CountInv (st : RenderState) : Prop :=
  ∀ k, st.processCount k ≤ 1 ∧
    (st.processCount k = 1 → st.processedThisQuantum.contains k = true)

/-- What one (successful) pull does to the render state: the memoization
guards only grow, the process counts of already-guarded nodes are frozen,
and the counting invariant is preserved. -/
def PullOK (st st' : RenderState) : Prop :=
  (∀ k, st.processedThisQuantum.contains k = true →
      st'.processedThisQuantum.contains k = true)
  ∧ (∀ k, st.processedThisQuantum.contains k = true →
      st'.processCount k = st.processCount k)
  ∧ (CountInv st → CountInv st')

/-- A concrete output for witnesses: channel count `chans`, frozen
rendering counts equal to the live counts. -/
def exampleOutput (chans : Nat) (inputs params : List Nat) : AudioNodeOutput :=
  { m_node := 0
    m_numberOfChannels := chans
    m_desiredNumberOfChannels := chans
    m_internalBus := { busId := 100, channels := chans }
    m_actualDestinationBus := none
    m_inputs := inputs
    m_isEnabled := true
    m_renderingFanOutCount := inputs.length
    m_renderingParamFanOutCount := params.length
    m_params := params }

open AudioNodeOutput

/-! Unfolding and bookkeeping lemmas for the render traversal. -/

theorem foldl_pull_none (g : AudioGraph) (fuel : Nat) (l : List Nat) :
    l.foldl (fun acc m => match acc with
      | none => none
      | some s => pullNode g fuel s m) (none : Option RenderState) = none := by
  induction l with
  | nil => rfl
  | cons m ms ih => exact ih

theorem pullNode_zero (g : AudioGraph) (st : RenderState) (n : Nat) :
    pullNode g 0 st n = none := rfl

theorem pullNode_succ (g : AudioGraph) (fuel : Nat) (st : RenderState) (n : Nat) :
    pullNode g (fuel + 1) st n =
      if st.processedThisQuantum.contains n then some st
      else
        match pullUpstream g fuel (markProcessed st n) (g.pred n) with
        | none => none
        | some st2 => some (bumpCount st2 n) := rfl

theorem pullUpstream_nil (g : AudioGraph) (fuel : Nat) (st : RenderState) :
    pullUpstream g fuel st [] = some st := rfl

theorem pullUpstream_cons (g : AudioGraph) (fuel : Nat) (st : RenderState)
    (m : Nat) (ms : List Nat) :
    pullUpstream g fuel st (m :: ms) =
      match pullNode g fuel st m with
      | none => none
      | some st2 => pullUpstream g fuel st2 ms := by
  have key : pullUpstream g fuel st (m :: ms)
      = ms.foldl (fun acc k => match acc with
          | none => none
          | some s => pullNode g fuel s k) (pullNode g fuel st m) := rfl
  rw [key]
  cases h : pullNode g fuel st m with
  | none => exact foldl_pull_none g fuel ms
  | some st2 => rfl

/-! Helper lemmas for the structural operations. -/

theorem applyStructOp_rendering (o : AudioNodeOutput) (op : StructOp) :
    (applyStructOp o op).m_renderingFanOutCount = o.m_renderingFanOutCount
    ∧ (applyStructOp o op).m_renderingParamFanOutCount
        = o.m_renderingParamFanOutCount := by
  cases op with
  | addIn i =>
      by_cases h : o.m_inputs.length < AUDIONODEOUTPUT_MAXINPUTS <;>
        simp [applyStructOp, addInput, h]
  | removeIn i => simp [applyStructOp, removeInput]
  | addP p =>
      by_cases h : p ∈ o.m_params <;>
        simp [applyStructOp, addParam, h]
  | removeP p => simp [applyStructOp, removeParam]

theorem updateChannelsIfNecessary_connections (o : AudioNodeOutput) :
    (updateChannelsIfNecessary o).m_inputs = o.m_inputs
    ∧ (updateChannelsIfNecessary o).m_params = o.m_params := by
  by_cases h : o.m_desiredNumberOfChannels = o.m_numberOfChannels <;>
    simp [updateChannelsIfNecessary, updateInternalBus, h]

theorem updateRenderingState_out (derive : Nat → Nat) (s : GraphEnv) :
    (updateRenderingState derive s).out = s.out.updateRenderingStateOut := by
  by_cases h : s.out.m_desiredNumberOfChannels = s.out.m_numberOfChannels <;>
    simp [updateRenderingState, propagateChannelCount, h]

/-- C2.  For every Output and every quantum, the frozen rendering fan-out
counts read by `renderingFanOutCount()` / `renderingParamFanOutCount()`
are left unchanged by any sequence of `addInput` / `removeInput` /
`addParam` / `removeParam` calls made during the quantum; only the
quantum-boundary `updateRenderingState` step copies the live fan-out
state into them. -/
theorem C2_rendering_counts_frozen_mid_quantum (o : AudioNodeOutput)
    (ops : List StructOp) (derive : Nat → Nat) (s : GraphEnv) :
    (ops.foldl applyStructOp o).renderingFanOutCount = o.renderingFanOutCount
    ∧ (ops.foldl applyStructOp o).renderingParamFanOutCount
        = o.renderingParamFanOutCount
    ∧ (updateRenderingState derive s).out.renderingFanOutCount = s.out.fanOutCount
    ∧ (updateRenderingState derive s).out.renderingParamFanOutCount
        = s.out.paramFanOutCount := by
  refine ⟨?_, ?_, ?_, ?_⟩
  · induction ops generalizing o with
    | nil => rfl
    | cons op ops ih =>
        rw [List.foldl_cons, ih (applyStructOp o op)]
        exact (applyStructOp_rendering o op).1
  · induction ops generalizing o with
    | nil => rfl
    | cons op ops ih =>
        rw [List.foldl_cons, ih (applyStructOp o op)]
        exact (applyStructOp_rendering o op).2
  · rw [updateRenderingState_out]
    show fanOutCount (updateChannelsIfNecessary s.out) = s.out.fanOutCount
    simp [fanOutCount, (updateChannelsIfNecessary_connections s.out).1]
  · rw [updateRenderingState_out]
    show paramFanOutCount (updateChannelsIfNecessary s.out) = s.out.paramFanOutCount
    simp [paramFanOutCount, (updateChannelsIfNecessary_connections s.out).2]

/-- C4.  An `addInput` on an Output whose bounded input array already
holds the fixed capacity of 8 connected Inputs reports a capacity error
and leaves the input set unchanged at 8 entries. -/
theorem C4_addInput_capacity_error (o : AudioNodeOutput) (i : Nat)
    (h : o.m_inputs.length = AUDIONODEOUTPUT_MAXINPUTS) :
    o.addInput i = Except.error ConnectError.capacityExceeded
    ∧ applyStructOp o (StructOp.addIn i) = o
    ∧ (applyStructOp o (StructOp.addIn i)).m_inputs.length = 8 := by
  have hn : ¬ o.m_inputs.length < AUDIONODEOUTPUT_MAXINPUTS := by
    rw [h]; exact Nat.lt_irrefl _
  have h2 : applyStructOp o (StructOp.addIn i) = o := by
    simp [applyStructOp, addInput, hn]
  refine ⟨by simp [addInput, hn], h2, ?_⟩
  rw [h2, h]; rfl

/-- Witness for C4: an output with 8 connected inputs. -/
theorem C4_addInput_capacity_error_witness :
    (exampleOutput 1 [0, 1, 2, 3, 4, 5, 6, 7] []).m_inputs.length
        = AUDIONODEOUTPUT_MAXINPUTS
    ∧ (exampleOutput 1 [0, 1, 2, 3, 4, 5, 6, 7] []).addInput 9
        = Except.error ConnectError.capacityExceeded :=
  ⟨by decide,
   (C4_addInput_capacity_error (exampleOutput 1 [0, 1, 2, 3, 4, 5, 6, 7] []) 9
     (by decide)).1⟩

/-- C10.  `isChannelCountKnown()` is true iff `numberOfChannels() > 0`;
an Output constructed with 0 channels reports an unknown channel count,
still unknown after `setNumberOfChannels` alone, and known only once the
render-thread update step applies the change. -/
theorem C10_zero_channel_count_means_unknown (o : AudioNodeOutput)
    (node n : Nat) (hn : 0 < n) :
    (o.isChannelCountKnown = true ↔ 0 < o.numberOfChannels)
    ∧ (mkOutput node 0).isChannelCountKnown = false
    ∧ ((mkOutput node 0).setNumberOfChannels n).isChannelCountKnown = false
    ∧ ((mkOutput node 0).setNumberOfChannels n).updateRenderingStateOut.isChannelCountKnown
        = true := by
  refine ⟨by simp [isChannelCountKnown], rfl, rfl, ?_⟩
  simp [updateRenderingStateOut, updateChannelsIfNecessary, updateInternalBus,
    setNumberOfChannels, mkOutput, isChannelCountKnown, numberOfChannels, hn.ne', hn]

/-- Witness for C10 at `n = 2`. -/
theorem C10_zero_channel_count_means_unknown_witness :
    0 < 2
    ∧ ((mkOutput 0 0).setNumberOfChannels 2).isChannelCountKnown = false
    ∧ ((mkOutput 0 0).setNumberOfChannels 2).updateRenderingStateOut.isChannelCountKnown
        = true :=
  ⟨by decide,
   (C10_zero_channel_count_means_unknown (mkOutput 0 0) 0 2 (by decide)).2.2.1,
   (C10_zero_channel_count_means_unknown (mkOutput 0 0) 0 2 (by decide)).2.2.2⟩

/-- C7.  `disable` zeroes the output's rendering contribution without
removing any Input or Parameter edge, `enable` restores the prior state
without re-establishing connections (they were never removed), and
`isConnected()` is true iff the live fan-out to node inputs or parameters
is nonzero — so a disabled-but-still-connected output still reports
connected. -/
theorem C7_disable_enable_keep_edges (o o2 : AudioNodeOutput)
    (h : o2.m_isEnabled = true) :
    o.disable.m_inputs = o.m_inputs
    ∧ o.disable.m_params = o.m_params
    ∧ renderingContribution o.disable = 0
    ∧ o.disable.isConnected = o.isConnected
    ∧ (o.isConnected = true ↔ 0 < o.fanOutCount ∨ 0 < o.paramFanOutCount)
    ∧ o2.disable.enable = o2
    ∧ o2.disable.m_inputs = o2.m_inputs
    ∧ o2.disable.m_params = o2.m_params := by
  refine ⟨rfl, rfl, rfl, rfl, ?_, ?_, rfl, rfl⟩
  · simp [isConnected]
  · cases o2
    simp_all [enable, disable]

/-- Witness for C7: an enabled output with one input and one param edge. -/
theorem C7_disable_enable_keep_edges_witness :
    (exampleOutput 1 [4] [6]).m_isEnabled = true
    ∧ renderingContribution (exampleOutput 1 [4] [6]).disable = 0
    ∧ (exampleOutput 1 [4] [6]).disable.isConnected
        = (exampleOutput 1 [4] [6]).isConnected
    ∧ (exampleOutput 1 [4] [6]).disable.enable = exampleOutput 1 [4] [6] :=
  ⟨by decide,
   (C7_disable_enable_keep_edges (exampleOutput 1 [4] [6]) (exampleOutput 1 [4] [6])
     (by decide)).2.2.1,
   (C7_disable_enable_keep_edges (exampleOutput 1 [4] [6]) (exampleOutput 1 [4] [6])
     (by decide)).2.2.2.1,
   (C7_disable_enable_keep_edges (exampleOutput 1 [4] [6]) (exampleOutput 1 [4] [6])
     (by decide)).2.2.2.2.2.1⟩

/-- C3.  With rendering fan-out exactly 1 (one downstream consumer,
inputs plus params) and a safe-to-reuse caller bus, `pull` returns that
same caller bus; with fan-out greater than 1 it returns the output's own
internal bus and never the caller bus. -/
theorem C3_pull_in_place_bus_selection (o o2 : AudioNodeOutput)
    (b b2 : AudioBus)
    (h1 : o.renderingFanOutCount + o.renderingParamFanOutCount = 1)
    (h2 : b.channels = o.m_numberOfChannels)
    (h3 : 1 < o2.renderingFanOutCount + o2.renderingParamFanOutCount)
    (h4 : b2.busId ≠ o2.m_internalBus.busId) :
    (o.pull (some b)).2 = b
    ∧ (o2.pull (some b2)).2 = o2.m_internalBus
    ∧ (o2.pull (some b2)).2 ≠ b2 := by
  have e2 : (o2.pull (some b2)).2 = o2.m_internalBus := by
    have hne : ¬ (b2.channels = o2.m_numberOfChannels ∧
        o2.renderingFanOutCount + o2.renderingParamFanOutCount = 1) := by
      intro hh
      omega
    simp [pull, hne]
  refine ⟨by simp [pull, h1, h2], e2, ?_⟩
  rw [e2]
  intro heq
  exact h4 (congrArg AudioBus.busId heq).symm

/-- Witness for C3: fan-out 1 with a matching caller bus, and fan-out 2
with a caller bus distinct from the internal bus. -/
theorem C3_pull_in_place_bus_selection_witness :
    (exampleOutput 2 [7] []).renderingFanOutCount
        + (exampleOutput 2 [7] []).renderingParamFanOutCount = 1
    ∧ 1 < (exampleOutput 2 [7, 8] []).renderingFanOutCount
        + (exampleOutput 2 [7, 8] []).renderingParamFanOutCount
    ∧ ((exampleOutput 2 [7] []).pull (some { busId := 5, channels := 2 })).2
        = { busId := 5, channels := 2 }
    ∧ ((exampleOutput 2 [7, 8] []).pull (some { busId := 5, channels := 2 })).2
        = (exampleOutput 2 [7, 8] []).m_internalBus :=
  ⟨by decide, by decide,
   (C3_pull_in_place_bus_selection (exampleOutput 2 [7] []) (exampleOutput 2 [7, 8] [])
     { busId := 5, channels := 2 } { busId := 5, channels := 2 }
     (by decide) (by decide) (by decide) (by decide)).1,
   (C3_pull_in_place_bus_selection (exampleOutput 2 [7] []) (exampleOutput 2 [7, 8] [])
     { busId := 5, channels := 2 } { busId := 5, channels := 2 }
     (by decide) (by decide) (by decide) (by decide)).2.1⟩

/-- C5.  `setNumberOfChannels(n)` stores only the desired channel count
and leaves `numberOfChannels()` unchanged; the actual count changes only
at the render-thread update step, which copies desired into actual,
reallocates the internal bus to `n` channels, and recomputes every
connected Input's derived channel count via `propagateChannelCount`. -/
theorem C5_set_channels_deferred_to_render_thread (s t : GraphEnv)
    (derive : Nat → Nat) (n m i : Nat)
    (hn : n ≠ s.out.m_numberOfChannels)
    (hm : m ≠ t.out.m_numberOfChannels)
    (hi : t.out.m_inputs.contains i = true) :
    (s.out.setNumberOfChannels n).numberOfChannels = s.out.numberOfChannels
    ∧ (s.out.setNumberOfChannels n).m_desiredNumberOfChannels = n
    ∧ (updateRenderingState derive
        { s with out := s.out.setNumberOfChannels n }).out.numberOfChannels = n
    ∧ (updateRenderingState derive
        { s with out := s.out.setNumberOfChannels n }).out.m_internalBus.channels = n
    ∧ (updateRenderingState derive
        { t with out := t.out.setNumberOfChannels m }).inputDerivedChannelCount i
        = derive m := by
  have hi2 : i ∈ t.out.m_inputs := by simpa using hi
  refine ⟨rfl, rfl, ?_, ?_, ?_⟩
  · simp [updateRenderingState, updateRenderingStateOut, updateChannelsIfNecessary,
      updateInternalBus, setNumberOfChannels, propagateChannelCount, numberOfChannels,
      fanOutCount, paramFanOutCount, hn]
  · simp [updateRenderingState, updateRenderingStateOut, updateChannelsIfNecessary,
      updateInternalBus, setNumberOfChannels, propagateChannelCount, numberOfChannels,
      fanOutCount, paramFanOutCount, hn]
  · simp [updateRenderingState, updateRenderingStateOut, updateChannelsIfNecessary,
      updateInternalBus, setNumberOfChannels, propagateChannelCount, numberOfChannels,
      fanOutCount, paramFanOutCount, hm, hi2]

/-- Witness for C5: a mono output changed to 2 channels, and an output
with one connected input changed to 4 channels under the rule
`derive c = c + 1`. -/
theorem C5_set_channels_deferred_to_render_thread_witness :
    2 ≠ (exampleOutput 1 [] []).m_numberOfChannels
    ∧ 4 ≠ (exampleOutput 1 [3] []).m_numberOfChannels
    ∧ (exampleOutput 1 [3] []).m_inputs.contains 3 = true
    ∧ ((exampleOutput 1 [] []).setNumberOfChannels 2).numberOfChannels
        = (exampleOutput 1 [] []).numberOfChannels
    ∧ (updateRenderingState (fun c => c + 1)
        { out := (exampleOutput 1 [] []).setNumberOfChannels 2
          inputDerivedChannelCount := fun _ => 0 }).out.numberOfChannels = 2
    ∧ (updateRenderingState (fun c => c + 1)
        { out := (exampleOutput 1 [3] []).setNumberOfChannels 4
          inputDerivedChannelCount := fun _ => 0 }).inputDerivedChannelCount 3
        = 4 + 1 := by
  have base := C5_set_channels_deferred_to_render_thread
    { out := exampleOutput 1 [] [], inputDerivedChannelCount := fun _ => 0 }
    { out := exampleOutput 1 [3] [], inputDerivedChannelCount := fun _ => 0 }
    (fun c => c + 1) 2 4 3 (by decide) (by decide) (by decide)
  exact ⟨by decide, by decide, by decide, base.1, base.2.2.1, base.2.2.2.2⟩

/-- C6.  `disconnectAll` severs every edge to every connected Input and
Parameter, leaving zero live fan-out and zero param fan-out, and notifies
each peer so that the Output is removed from the peer's own set; on an
Output with no connections it leaves the state unchanged (idempotent
teardown). -/
theorem C6_disconnectAll_bidirectional (s : BiGraph) (i p : Nat) (t : BiGraph)
    (hi : s.out.m_inputs.contains i = true)
    (hp : s.out.m_params.contains p = true)
    (ht1 : t.out.m_inputs = []) (ht2 : t.out.m_params = []) :
    (disconnectAll s).out.fanOutCount = 0
    ∧ (disconnectAll s).out.paramFanOutCount = 0
    ∧ (disconnectAll s).out.isConnected = false
    ∧ s.outId ∉ (disconnectAll s).inputOutputs i
    ∧ s.outId ∉ (disconnectAll s).paramOutputs p
    ∧ disconnectAll t = t := by
  have hi2 : i ∈ s.out.m_inputs := by simpa using hi
  have hp2 : p ∈ s.out.m_params := by simpa using hp
  refine ⟨rfl, rfl, rfl, ?_, ?_, ?_⟩
  · simp [disconnectAll, disconnectAllParams, disconnectAllInputs, hi2, List.mem_filter]
  · simp [disconnectAll, disconnectAllParams, disconnectAllInputs, hp2, List.mem_filter]
  · obtain ⟨oid, out, io, po⟩ := t
    simp only at ht1 ht2
    cases out
    simp only at ht1 ht2
    subst ht1
    subst ht2
    rfl

/-- Witness for C6: an output (id 9) with 3 inputs and 2 params whose
peers all reference it, and an output with no connections. -/
theorem C6_disconnectAll_bidirectional_witness :
    (exampleOutput 2 [1, 2, 3] [4, 5]).m_inputs.contains 1 = true
    ∧ (exampleOutput 2 [1, 2, 3] [4, 5]).m_params.contains 4 = true
    ∧ (disconnectAll
        { outId := 9, out := exampleOutput 2 [1, 2, 3] [4, 5]
          inputOutputs := fun _ => [9], paramOutputs := fun _ => [9] }).out.fanOutCount = 0
    ∧ (9 : Nat) ∉ (disconnectAll
        { outId := 9, out := exampleOutput 2 [1, 2, 3] [4, 5]
          inputOutputs := fun _ => [9], paramOutputs := fun _ => [9] }).inputOutputs 1
    ∧ disconnectAll
        { outId := 9, out := exampleOutput 2 [] []
          inputOutputs := fun _ => [], paramOutputs := fun _ => [] }
      = { outId := 9, out := exampleOutput 2 [] []
          inputOutputs := fun _ => [], paramOutputs := fun _ => [] } := by
  have base := C6_disconnectAll_bidirectional
    { outId := 9, out := exampleOutput 2 [1, 2, 3] [4, 5]
      inputOutputs := fun _ => [9], paramOutputs := fun _ => [9] } 1 4
    { outId := 9, out := exampleOutput 2 [] []
      inputOutputs := fun _ => [], paramOutputs := fun _ => [] }
    (by decide) (by decide) (by decide) (by decide)
  exact ⟨by decide, by decide, base.1, base.2.2.2.1, base.2.2.2.2.2⟩

/-- C8 counterexample.  The round trip `addInput(I)` then `removeInput(I)`
does not always restore the prior live fan-out set: on an output whose
bounded array is already full and already contains I, the `addInput`
fails with a capacity error (leaving the 8 entries in place) and the
`removeInput` then removes I, so the pair of calls loses the edge to I. -/
theorem C8_full_array_round_trip_fails :
    0 ∈ (exampleOutput 1 [0, 1, 2, 3, 4, 5, 6, 7] []).m_inputs
    ∧ 0 ∉ ((applyStructOp (exampleOutput 1 [0, 1, 2, 3, 4, 5, 6, 7] [])
        (StructOp.addIn 0)).removeInput 0).m_inputs
    ∧ ((applyStructOp (exampleOutput 1 [0, 1, 2, 3, 4, 5, 6, 7] [])
        (StructOp.addIn 0)).removeInput 0).m_inputs
      ≠ (exampleOutput 1 [0, 1, 2, 3, 4, 5, 6, 7] []).m_inputs :=
  ⟨by decide, by decide, by decide⟩

/-- C8 (amended).  Provided the `addInput(I)` call succeeds (no capacity
error), a subsequent `removeInput(I)` returns the live fan-out set (as a
multiset) to its state before the pair of calls; and `removeInput` on an
Input that is not in the set is a no-op, not an error. -/
theorem C8_add_remove_round_trip (o o2 o3 : AudioNodeOutput) (i j : Nat)
    (h1 : o.addInput i = Except.ok o2)
    (h2 : o3.m_inputs.contains j = false) :
    ((o2.removeInput i).m_inputs).Perm o.m_inputs
    ∧ o3.removeInput j = o3 := by
  constructor
  · have hlen : o.m_inputs.length < AUDIONODEOUTPUT_MAXINPUTS := by
      by_contra hc
      simp [addInput, hc] at h1
    rw [addInput, if_pos hlen] at h1
    obtain rfl := Except.ok.inj h1
    show ((o.m_inputs ++ [i]).erase i).Perm o.m_inputs
    have hp : (o.m_inputs ++ [i]).Perm (i :: o.m_inputs) :=
      List.perm_append_singleton i o.m_inputs
    have he := hp.erase i
    rw [List.erase_cons_head] at he
    exact he
  · have hj : j ∉ o3.m_inputs := by simpa using h2
    show { o3 with m_inputs := o3.m_inputs.erase j } = o3
    rw [List.erase_of_not_mem hj]

/-- Witness for the amended C8: add then remove input 7 on an output with
inputs `[5]`, and remove an absent input. -/
theorem C8_add_remove_round_trip_witness :
    (exampleOutput 1 [5] []).addInput 7
        = Except.ok { exampleOutput 1 [5] [] with m_inputs := [5, 7] }
    ∧ (exampleOutput 1 [5] []).m_inputs.contains 7 = false
    ∧ (({ exampleOutput 1 [5] [] with m_inputs := [5, 7] } :
        AudioNodeOutput).removeInput 7).m_inputs.Perm
        (exampleOutput 1 [5] []).m_inputs
    ∧ (exampleOutput 1 [5] []).removeInput 7 = exampleOutput 1 [5] [] := by
  have base := C8_add_remove_round_trip (exampleOutput 1 [5] [])
    { exampleOutput 1 [5] [] with m_inputs := [5, 7] }
    (exampleOutput 1 [5] []) 7 7 (by rfl) (by rfl)
  exact ⟨by rfl, by rfl, base.1, base.2⟩

/-! Invariant machinery for the memoized render traversal. -/

theorem pullOK_refl (st : RenderState) : PullOK st st :=
  ⟨fun _ h => h, fun _ _ => rfl, fun h => h⟩

theorem pullOK_trans {a b c : RenderState} (h1 : PullOK a b) (h2 : PullOK b c) :
    PullOK a c :=
  ⟨fun k hk => h2.1 k (h1.1 k hk),
   fun k hk => (h2.2.1 k (h1.1 k hk)).trans (h1.2.1 k hk),
   fun hi => h2.2.2 (h1.2.2 hi)⟩

theorem markProcessed_contains_self (st : RenderState) (n : Nat) :
    (markProcessed st n).processedThisQuantum.contains n = true := by
  simp [markProcessed]

theorem markProcessed_contains_of (st : RenderState) (n k : Nat)
    (h : st.processedThisQuantum.contains k = true) :
    (markProcessed st n).processedThisQuantum.contains k = true := by
  simp [markProcessed]
  simp at h
  exact Or.inr h

theorem pull_ok (g : AudioGraph) (fuel : Nat) :
    (∀ st n st', pullNode g fuel st n = some st' → PullOK st st')
    ∧ (∀ l st st', pullUpstream g fuel st l = some st' → PullOK st st') := by
  induction fuel with
  | zero =>
      constructor
      · intro st n st' h
        rw [pullNode_zero] at h
        exact absurd h (by simp)
      · intro l
        induction l with
        | nil =>
            intro st st' h
            rw [pullUpstream_nil] at h
            obtain rfl := Option.some.inj h
            exact pullOK_refl st
        | cons m ms ih =>
            intro st st' h
            rw [pullUpstream_cons, pullNode_zero] at h
            simp at h
  | succ f ih =>
      have hN : ∀ st n st', pullNode g (f + 1) st n = some st' → PullOK st st' := by
        intro st n st' h
        rw [pullNode_succ] at h
        by_cases hc : st.processedThisQuantum.contains n = true
        · rw [if_pos hc] at h
          obtain rfl := Option.some.inj h
          exact pullOK_refl st
        · rw [if_neg hc] at h
          cases hu : pullUpstream g f (markProcessed st n) (g.pred n) with
          | none => rw [hu] at h; simp at h
          | some st2 =>
              rw [hu] at h
              obtain rfl := Option.some.inj h
              have hok := ih.2 (g.pred n) (markProcessed st n) st2 hu
              refine ⟨?_, ?_, ?_⟩
              · intro k hk
                exact hok.1 k (markProcessed_contains_of st n k hk)
              · intro k hk
                have hkn : k ≠ n := by
                  intro e
                  subst e
                  exact hc hk
                have e2 : st2.processCount k = st.processCount k :=
                  hok.2.1 k (markProcessed_contains_of st n k hk)
                show (if k = n then st2.processCount k + 1 else st2.processCount k)
                    = st.processCount k
                rw [if_neg hkn]
                exact e2
              · intro hinv
                have hinv1 : CountInv (markProcessed st n) := by
                  intro k
                  refine ⟨(hinv k).1, fun h1 => ?_⟩
                  exact markProcessed_contains_of st n k ((hinv k).2 h1)
                have hinv2 : CountInv st2 := hok.2.2 hinv1
                have hn0 : st.processCount n = 0 := by
                  have ha := (hinv n).1
                  have hb := (hinv n).2
                  rcases Nat.lt_or_ge (st.processCount n) 1 with hlt | hge
                  · omega
                  · have : st.processCount n = 1 := by omega
                    exact absurd (hb this) hc
                have hn2 : st2.processCount n = 0 := by
                  have := hok.2.1 n (markProcessed_contains_self st n)
                  rw [this]
                  exact hn0
                intro k
                constructor
                · show (if k = n then st2.processCount k + 1 else st2.processCount k) ≤ 1
                  by_cases hkn : k = n
                  · subst hkn
                    rw [if_pos rfl, hn2]
                  · rw [if_neg hkn]
                    exact (hinv2 k).1
                · intro h1
                  show (bumpCount st2 n).processedThisQuantum.contains k = true
                  by_cases hkn : k = n
                  · subst hkn
                    exact hok.1 k (markProcessed_contains_self st k)
                  · have h1' : st2.processCount k = 1 := by
                      have e3 : (if k = n then st2.processCount k + 1
                          else st2.processCount k) = 1 := h1
                      rw [if_neg hkn] at e3
                      exact e3
                    exact (hinv2 k).2 h1'
      have hU : ∀ l st st', pullUpstream g (f + 1) st l = some st' → PullOK st st' := by
        intro l
        induction l with
        | nil =>
            intro st st' h
            rw [pullUpstream_nil] at h
            obtain rfl := Option.some.inj h
            exact pullOK_refl st
        | cons m ms ihl =>
            intro st st' h
            rw [pullUpstream_cons] at h
            cases hm : pullNode g (f + 1) st m with
            | none => rw [hm] at h; simp at h
            | some st2 =>
                rw [hm] at h
                exact pullOK_trans (hN st m st2 hm) (ihl st2 st' h)
      exact ⟨hN, hU⟩

theorem countInv_quantumStart : CountInv quantumStart := by
  intro k
  constructor
  · show (0 : Nat) ≤ 1
    omega
  · intro h
    exact absurd h (by simp [quantumStart])

/-- C1.  Starting from the quantum-boundary state, any sequence of pulls
leaves every node's process step run at most once (fan-in memoization);
pulling a node whose guard is already set is a no-op; and on the diamond
graph A→B, A→C, B→D, C→D, pulling D processes each of A, B, C, D exactly
once. -/
theorem C1_node_processed_at_most_once_per_quantum (g : AudioGraph)
    (fuel k : Nat) (pulls : List Nat) (st : RenderState) (n : Nat)
    (h : st.processedThisQuantum.contains n = true) :
    countsAtMostOnce (pullUpstream g fuel quantumStart pulls) k = true
    ∧ pullNode g (fuel + 1) st n = some st
    ∧ (pullNode diamondGraph 5 quantumStart 3).map (fun s =>
        (s.processCount 0, s.processCount 1, s.processCount 2, s.processCount 3))
        = some (1, 1, 1, 1) := by
  refine ⟨?_, ?_, by decide⟩
  · cases hu : pullUpstream g fuel quantumStart pulls with
    | none => rfl
    | some st' =>
        have hok := (pull_ok g fuel).2 pulls quantumStart st' hu
        have hinv := hok.2.2 countInv_quantumStart
        show decide (st'.processCount k ≤ 1) = true
        exact decide_eq_true (hinv k).1
  · rw [pullNode_succ, if_pos h]

/-- Witness for C1 on the diamond graph: node D (3) pulled twice from the
quantum start, and a no-op re-pull of an already-processed node 7. -/
theorem C1_node_processed_at_most_once_per_quantum_witness :
    (markProcessed quantumStart 7).processedThisQuantum.contains 7 = true
    ∧ countsAtMostOnce (pullUpstream diamondGraph 5 quantumStart [3, 3]) 0 = true
    ∧ pullNode diamondGraph 6 (markProcessed quantumStart 7) 7
        = some (markProcessed quantumStart 7) := by
  have base := C1_node_processed_at_most_once_per_quantum diamondGraph 5 0 [3, 3]
    (markProcessed quantumStart 7) 7 (by decide)
  exact ⟨by decide, base.1, base.2.1⟩

theorem pull_total (g : AudioGraph) (rank : Nat → Nat)
    (hacyc : ∀ n m, m ∈ g.pred n → rank m < rank n) (fuel : Nat) :
    (∀ n st, rank n < fuel → (pullNode g fuel st n).isSome = true)
    ∧ (∀ l st, (∀ m, m ∈ l → rank m < fuel) →
        (pullUpstream g fuel st l).isSome = true) := by
  induction fuel with
  | zero =>
      constructor
      · intro n st h
        exact absurd h (Nat.not_lt_zero _)
      · intro l st h
        cases l with
        | nil => rfl
        | cons m ms => exact absurd (h m (List.mem_cons_self m ms)) (Nat.not_lt_zero _)
  | succ f ih =>
      have hN : ∀ n st, rank n < f + 1 → (pullNode g (f + 1) st n).isSome = true := by
        intro n st hn
        rw [pullNode_succ]
        by_cases hc : st.processedThisQuantum.contains n = true
        · rw [if_pos hc]
          rfl
        · rw [if_neg hc]
          have hl : ∀ m, m ∈ g.pred n → rank m < f := by
            intro m hm
            have := hacyc n m hm
            omega
          have hs := ih.2 (g.pred n) (markProcessed st n) hl
          cases hu : pullUpstream g f (markProcessed st n) (g.pred n) with
          | none => rw [hu] at hs; simp at hs
          | some st2 => rfl
      have hU : ∀ l st, (∀ m, m ∈ l → rank m < f + 1) →
          (pullUpstream g (f + 1) st l).isSome = true := by
        intro l
        induction l with
        | nil => intro st h; rfl
        | cons m ms ihl =>
            intro st h
            rw [pullUpstream_cons]
            have h1 := hN m st (h m (List.mem_cons_self m ms))
            cases hm : pullNode g (f + 1) st m with
            | none => rw [hm] at h1; simp at h1
            | some st2 =>
                exact ihl st2 (fun x hx => h x (List.mem_cons_of_mem m hx))
      exact ⟨hN, hU⟩

/-- C9.  On a graph that is acyclic in its audio-producing direction
(witnessed by a rank function that strictly decreases along upstream
edges), `pull` terminates: with recursion depth bounded by the pulled
node's rank, the traversal never exhausts its fuel — each revisit stops
at the already-processed-this-quantum guard, so the recursion bottoms
out. -/
theorem C9_pull_terminates_on_acyclic_graph (g : AudioGraph)
    (rank : Nat → Nat) (hacyc : ∀ n m, m ∈ g.pred n → rank m < rank n)
    (fuel n : Nat) (st : RenderState) (hfuel : rank n < fuel) :
    (pullNode g fuel st n).isSome = true :=
  (pull_total g rank hacyc fuel).1 n st hfuel

/-- Witness for C9: the diamond graph is ranked by the identity, and
pulling D (3) with fuel 4 succeeds. -/
theorem C9_pull_terminates_on_acyclic_graph_witness :
    (∀ n m, m ∈ diamondGraph.pred n → m < n)
    ∧ (pullNode diamondGraph 4 quantumStart 3).isSome = true := by
  have hr : ∀ n m, m ∈ diamondGraph.pred n → m < n := by
    intro n m hm
    rcases n with _ | _ | _ | _ | n <;> simp [diamondGraph, diamondPred] at hm <;> omega
  exact ⟨hr, C9_pull_terminates_on_acyclic_graph diamondGraph (fun x => x) hr 4 3
    quantumStart (by decide)⟩

end LabSoundModel
